import Mathlib

/-!
Verification of `src/inLinux/E04Fork.cpp`.

The program calls `fork()`, branches three ways on the sign of the result
(negative = failure, zero = child, positive = parent), prints one line in
the taken arm, and — only when the first result was positive — calls
`fork()` a second time with the same three-way branch. It then returns 0.

We embed the program as a small syntax of process programs (`Prog`) whose
`fork` constructor branches on the integer the call returns, together with
an executable semantics `exec` that returns the outcome of every process
created by a run. The results of the fork calls, as observed by the
process that issued them, are supplied by an oracle list; a newly created
process observes `0` from the call that created it, exactly as `fork`
behaves.
-/

namespace E04Fork

/-- One line of output of `E04Fork.cpp`, one constructor per `printf` call
in the source. The parent's line carries the child pid that was printed
with `%d`. -/
inductive Line where
  | fail
  | A (pid : Int)
  | B
  | C
deriving DecidableEq, Repr

/-- The literal text of each `printf` format, with the `%d` of the parent
line instantiated. -/
def render : Line → String
  | .fail => "创建失败\n"
  | .A pid => "A, 子进程ID：" ++ toString pid ++ "\n"
  | .B => "B, 我是A创建的子进程\n"
  | .C => "C, 我是A创建的子进程\n"

/-- Syntax of the process programs we consider: return an exit code, print
a line, wait for a child (available in the API, never used by this
program), or fork and continue with the value the call returned. -/
inductive Prog where
  | ret (code : Int)
  | print (l : Line) (k : Prog)
  | wait (k : Prog)
  | fork (k : Int → Prog)

/-- Outcome of a single process in a run: the lines it printed, the exit
code it returned, and how many fork calls it issued itself. -/
structure ProcResult where
  output : List Line
  exitCode : Int
  forks : Nat
deriving DecidableEq, Repr

/-- Execute a program under an oracle listing the value each fork call
returns to the process that issues it. The result lists the outcome of the
issuing process first, followed by the outcomes of every process the run
created. When a fork returns a positive value, a new process starts from
the same continuation observing `0`, as `fork` behaves on the child side.
An exhausted oracle makes the call fail (returns `-1`). -/
def exec : Prog → List Int → List ProcResult
  | .ret c, _ => [⟨[], c, 0⟩]
  | .print l k, os =>
    match exec k os with
    | [] => []
    | p :: rest => ⟨l :: p.output, p.exitCode, p.forks⟩ :: rest
  | .wait k, os => exec k os
  | .fork k, os =>
    let o := os.headD (-1)
    match exec (k o) os.tail with
    | [] => []
    | p :: rest =>
      ⟨p.output, p.exitCode, p.forks + 1⟩ :: (rest ++ (if 0 < o then exec (k 0) os.tail else []))

/-- The second block of `main` (lines 18–31 of the source): guarded by
`pid > 0`, it reassigns `pid = fork()` and branches three ways, printing
`创建失败`, the `A` line, or the `C` line. -/
def secondBlock (pid : Int) : Prog :=
  if 0 < pid then
    .fork fun pid2 =>
      if pid2 < 0 then .print .fail (.ret 0)
      else if 0 < pid2 then .print (.A pid2) (.ret 0)
      else .print .C (.ret 0)
  else .ret 0

/-- `main` of `E04Fork.cpp`: `pid = fork()`, a three-way branch printing
`创建失败`, the `A` line, or the `B` line, then the second block, then
`return 0`. -/
def mainProg : Prog :=
  .fork fun pid =>
    if pid < 0 then .print .fail (secondBlock pid)
    else if 0 < pid then .print (.A pid) (secondBlock pid)
    else .print .B (secondBlock pid)

/-- `main` with its `argc`/`argv` parameters: the body of the source never
reads either, so the program is a constant function of them. -/
def mainArgs (argc : Int) (argv : List String) : Prog :=
  mainProg

/-- The three value classes of a fork result, as the spec's
`ProcessHandle` describes them. -/
inductive ForkClass where
  | failure
  | duplicate
  | original
deriving DecidableEq, Repr

/-- Classification of a fork result by the sign tests the source performs:
`pid < 0` failure, `pid > 0` original, otherwise duplicate. -/
def classify (pid : Int) : ForkClass :=
  if pid < 0 then .failure
  else if 0 < pid then .original
  else .duplicate

/-- Lines printed only by a newly created process of this program. -/
def isDupLine : Line → Bool
  | .B => true
  | .C => true
  | _ => false

/-- Lines printed by the parent after a successful fork. -/
def isALine : Line → Bool
  | .A _ => true
  | _ => false

/-- A process that observed a duplicate classification: some line it
printed is a duplicate-marker line. -/
def isDupProc (p : ProcResult) : Bool :=
  p.output.any isDupLine

/-- A process that never observed a duplicate classification: none of its
lines is a duplicate-marker line. -/
def isOrigProc (p : ProcResult) : Bool :=
  p.output.all fun l => !isDupLine l

/-- Total number of lines printed across all processes of a run. -/
def totalLines (ps : List ProcResult) : Nat :=
  (ps.map fun p => p.output.length).sum

/-- Number of lines satisfying `f` printed across all processes. -/
def countLines (f : Line → Bool) (ps : List ProcResult) : Nat :=
  (ps.map fun p => (p.output.filter f).length).sum

/-- Programs whose every execution path is free of wait/join/reap
operations: every constructor except `Prog.wait` preserves the property,
and a fork must be wait-free for every value the call can return. -/
inductive WaitFree : Prog → Prop where
  | ret (c : Int) : WaitFree (.ret c)
  | print (l : Line) {k : Prog} : WaitFree k → WaitFree (.print l k)
  | fork {k : Int → Prog} : (∀ v, WaitFree (k v)) → WaitFree (.fork k)

/-- The run of `main` as a function of the two fork results the original
process observes, in closed form: the four sign cases of the pair. -/
def runE04 (r1 r2 : Int) : List ProcResult :=
  if r1 < 0 then [⟨[.fail], 0, 1⟩]
  else if 0 < r1 then
    if r2 < 0 then [⟨[.A r1, .fail], 0, 2⟩, ⟨[.B], 0, 0⟩]
    else if 0 < r2 then
      [⟨[.A r1, .A r2], 0, 2⟩, ⟨[.C], 0, 0⟩, ⟨[.B], 0, 0⟩]
    else [⟨[.A r1, .C], 0, 2⟩, ⟨[.B], 0, 0⟩]
  else [⟨[.B], 0, 1⟩]

lemma exec_mainProg (r1 r2 : Int) :
    exec mainProg [r1, r2] = runE04 r1 r2 := by
  rcases lt_trichotomy r1 0 with h1 | h1 | h1
  · simp [mainProg, exec, secondBlock, runE04, h1, asymm h1, not_lt_of_lt h1]
  · subst h1
    simp [mainProg, exec, secondBlock, runE04]
  · rcases lt_trichotomy r2 0 with h2 | h2 | h2
    · simp [mainProg, exec, secondBlock, runE04, h1, asymm h1, not_lt_of_lt h1,
        h2, asymm h2, not_lt_of_lt h2]
    · subst h2
      simp [mainProg, exec, secondBlock, runE04, h1, asymm h1, not_lt_of_lt h1]
    · simp [mainProg, exec, secondBlock, runE04, h1, asymm h1, not_lt_of_lt h1,
        h2, asymm h2, not_lt_of_lt h2]

lemma waitFree_secondBlock (v : Int) : WaitFree (secondBlock v) := by
  unfold secondBlock
  split_ifs
  · refine .fork fun w => ?_
    split_ifs
    · exact .print _ (.ret 0)
    · exact .print _ (.ret 0)
    · exact .print _ (.ret 0)
  · exact .ret 0

/-- C1 (counterexample): when both duplication calls succeed (results 1
and 2), the program prints four lines in total, not three as the claim
states. -/
theorem c1_counterexample :
    totalLines (exec mainProg [1, 2]) = 4 ∧
      ¬ totalLines (exec mainProg [1, 2]) = 3 := by
  decide

/-- C1 (amended): for the three-process variant in which the original
performs two successful duplication calls, the program prints four lines
total: two lines with the original's marker (one per successful call) and
two duplicate-marker lines, in unspecified order. -/
theorem c1_four_lines (r1 r2 : Int) (h1 : 0 < r1) (h2 : 0 < r2) :
    totalLines (exec mainProg [r1, r2]) = 4 ∧
    countLines isALine (exec mainProg [r1, r2]) = 2 ∧
    countLines isDupLine (exec mainProg [r1, r2]) = 2 := by
  simp only [exec_mainProg]
  simp [runE04, h1, h2, asymm h1, not_lt_of_lt h1, asymm h2, not_lt_of_lt h2,
    totalLines, countLines, isALine, isDupLine]

/-- C1 witness: the amended statement at fork results 1 and 2. -/
theorem c1_four_lines_witness :
    totalLines (exec mainProg [1, 2]) = 4 ∧
    countLines isALine (exec mainProg [1, 2]) = 2 ∧
    countLines isDupLine (exec mainProg [1, 2]) = 2 :=
  c1_four_lines 1 2 (by decide) (by decide)

/-- C2: in every fully successful run, exactly one of the resulting
processes never observes a zero/duplicate classification, every other
process observes the duplicate classification, and there is at least one
duplicate. -/
theorem c2_one_original (r1 r2 : Int) (h1 : 0 < r1) (h2 : 0 < r2) :
    ((exec mainProg [r1, r2]).filter isOrigProc).length = 1 ∧
    ((exec mainProg [r1, r2]).filter isDupProc).length =
      (exec mainProg [r1, r2]).length - 1 ∧
    1 ≤ ((exec mainProg [r1, r2]).filter isDupProc).length := by
  simp only [exec_mainProg]
  simp [runE04, h1, h2, asymm h1, not_lt_of_lt h1, asymm h2, not_lt_of_lt h2,
    isOrigProc, isDupProc, isDupLine, List.filter]

/-- C2 witness: the statement at fork results 1 and 2. -/
theorem c2_one_original_witness :
    ((exec mainProg [1, 2]).filter isOrigProc).length = 1 ∧
    ((exec mainProg [1, 2]).filter isDupProc).length =
      (exec mainProg [1, 2]).length - 1 ∧
    1 ≤ ((exec mainProg [1, 2]).filter isDupProc).length :=
  c2_one_original 1 2 (by decide) (by decide)

/-- C3: when the first duplication call fails, the run consists of the
original alone, which prints exactly one failure line and issues no second
fork (its fork count stays 1, and no duplicate process exists); when the
second call fails, the original prints exactly one failure line after its
`A` line and creates no further duplicate beyond the first child. -/
theorem c3_failure_stops (r1 r2 : Int) :
    (r1 < 0 → exec mainProg [r1, r2] = [⟨[.fail], 0, 1⟩]) ∧
    (0 < r1 → r2 < 0 →
      exec mainProg [r1, r2] = [⟨[.A r1, .fail], 0, 2⟩, ⟨[.B], 0, 0⟩]) := by
  constructor
  · intro h
    simp [exec_mainProg, runE04, h]
  · intro h1 h2
    simp [exec_mainProg, runE04, h1, h2, asymm h1, not_lt_of_lt h1]

/-- C3 witness: a failing first call (result -1) yields one process with
one failure line and a single fork issued. -/
theorem c3_failure_stops_witness :
    exec mainProg [-1, 5] = [⟨[.fail], 0, 1⟩] :=
  (c3_failure_stops (-1) 5).1 (by decide)

/-- C4: every process of every run returns exit code 0, whatever the two
fork results were, including the paths on which a duplication call
failed. -/
theorem c4_exit_zero (r1 r2 : Int) :
    ∀ p ∈ exec mainProg [r1, r2], p.exitCode = 0 := by
  simp only [exec_mainProg]
  unfold runE04
  split_ifs <;> simp [List.forall_mem_cons]

/-- C4 witness: the child process of a successful run exits with 0. -/
theorem c4_exit_zero_witness :
    (⟨[Line.B], 0, 0⟩ : ProcResult).exitCode = 0 :=
  c4_exit_zero 1 2 ⟨[Line.B], 0, 0⟩ (by decide)

/-- C5: every fork result falls in exactly one of the three classes the
branches test for, and each three-way branch executes exactly one arm,
printing one line per branch taken: the original prints two lines when its
first result is positive (both branches run) and one line otherwise, and
every created process prints exactly one line. -/
theorem c5_trichotomy (v r2 : Int) :
    ((classify v = .failure ↔ v < 0) ∧
     (classify v = .duplicate ↔ v = 0) ∧
     (classify v = .original ↔ 0 < v)) ∧
    ((exec mainProg [v, r2]).headD ⟨[], 0, 0⟩).output.length =
      (if 0 < v then 2 else 1) ∧
    (∀ p ∈ (exec mainProg [v, r2]).tail, p.output.length = 1) := by
  refine ⟨?_, ?_, ?_⟩
  · unfold classify
    split_ifs <;> simp_all <;> omega
  · simp only [exec_mainProg]
    unfold runE04
    split_ifs <;> simp_all <;> omega
  · simp only [exec_mainProg]
    unfold runE04
    split_ifs <;> simp [List.forall_mem_cons]

/-- C5 witness: the classification and line counts at first result 1,
second result 2, for the created process printing `C`. -/
theorem c5_trichotomy_witness :
    (classify 1 = .original ↔ (0 : Int) < 1) ∧
    (⟨[Line.C], 0, 0⟩ : ProcResult).output.length = 1 :=
  ⟨(c5_trichotomy 1 2).1.2.2,
   (c5_trichotomy 1 2).2.2 ⟨[Line.C], 0, 0⟩ (by decide)⟩

/-- C6: the program consumes no command-line arguments: for any two
argc/argv pairs and the same fork results, the per-process outputs and
exit codes are identical. -/
theorem c6_args_ignored (argc argc2 : Int) (argv argv2 : List String)
    (r1 r2 : Int) :
    exec (mainArgs argc argv) [r1, r2] = exec (mainArgs argc2 argv2) [r1, r2] :=
  rfl

/-- C7: on every execution path, for every value any fork call can
return, the program never performs a wait/join/reap operation. -/
theorem c7_no_wait : WaitFree mainProg := by
  unfold mainProg
  refine .fork fun v => ?_
  split_ifs
  · exact .print _ (waitFree_secondBlock v)
  · exact .print _ (waitFree_secondBlock v)
  · exact .print _ (waitFree_secondBlock v)

/-- C8: a process created by a fork never issues a further fork (every
process after the original in the run has fork count 0), and only when
the original's first result is positive does it reach the second fork
(fork count 2 rather than 1): the sibling-duplicates shape. -/
theorem c8_duplicates_never_fork (r1 r2 : Int) :
    (∀ p ∈ (exec mainProg [r1, r2]).tail, p.forks = 0) ∧
    ((exec mainProg [r1, r2]).headD ⟨[], 0, 0⟩).forks =
      (if 0 < r1 then 2 else 1) := by
  constructor
  · simp only [exec_mainProg]
    unfold runE04
    split_ifs <;> simp [List.forall_mem_cons]
  · simp only [exec_mainProg]
    unfold runE04
    split_ifs <;> simp_all <;> omega

/-- C8 witness: in the fully successful run with results 1 and 2, the
created process printing `C` issued no fork. -/
theorem c8_duplicates_never_fork_witness :
    (⟨[Line.C], 0, 0⟩ : ProcResult).forks = 0 :=
  (c8_duplicates_never_fork 1 2).1 ⟨[Line.C], 0, 0⟩ (by decide)

/-- C9: when both duplication calls succeed, the original prints the `A`
line once per call with the embedded pid equal to the value that call
returned, and the run emits four lines in total across its three
processes. -/
theorem c9_a_line_per_call (r1 r2 : Int) (h1 : 0 < r1) (h2 : 0 < r2) :
    exec mainProg [r1, r2] =
      [⟨[.A r1, .A r2], 0, 2⟩, ⟨[.C], 0, 0⟩, ⟨[.B], 0, 0⟩] ∧
    ((exec mainProg [r1, r2]).headD ⟨[], 0, 0⟩).output.map render =
      ["A, 子进程ID：" ++ toString r1 ++ "\n",
       "A, 子进程ID：" ++ toString r2 ++ "\n"] ∧
    totalLines (exec mainProg [r1, r2]) = 4 := by
  simp only [exec_mainProg]
  refine ⟨?_, ?_, ?_⟩ <;>
    simp [runE04, h1, h2, asymm h1, not_lt_of_lt h1, asymm h2, not_lt_of_lt h2,
      render, totalLines]

/-- C9 witness: the statement at fork results 1 and 2. -/
theorem c9_a_line_per_call_witness :
    exec mainProg [1, 2] =
      [⟨[.A 1, .A 2], 0, 2⟩, ⟨[.C], 0, 0⟩, ⟨[.B], 0, 0⟩] ∧
    ((exec mainProg [1, 2]).headD ⟨[], 0, 0⟩).output.map render =
      ["A, 子进程ID：" ++ toString (1 : Int) ++ "\n",
       "A, 子进程ID：" ++ toString (2 : Int) ++ "\n"] ∧
    totalLines (exec mainProg [1, 2]) = 4 :=
  c9_a_line_per_call 1 2 (by decide) (by decide)

/-- C10: the program is deterministic given the duplication results: two
runs with equal fork results — whatever their argc/argv — produce the same
per-process line sequences and exit codes. -/
theorem c10_deterministic (argc argc2 : Int) (argv argv2 : List String)
    (r1 r2 s1 s2 : Int) (h1 : r1 = s1) (h2 : r2 = s2) :
    exec (mainArgs argc argv) [r1, r2] = exec (mainArgs argc2 argv2) [s1, s2] := by
  subst h1
  subst h2
  rfl

/-- C10 witness: two runs with fork results 1 and 2 but different command
lines coincide. -/
theorem c10_deterministic_witness :
    exec (mainArgs 0 []) [1, 2] = exec (mainArgs 7 ["x"]) [1, 2] :=
  c10_deterministic 0 7 [] ["x"] 1 2 1 2 rfl rfl

end E04Fork
